import Mathlib

/-!
# MediTranslate — formal model of the core services

A shallow embedding of the services of the MediTranslate repository:

* `AnalysisService.detect_document_type` and `AnalysisService.analyze_text`
  (`src/meditranslate/services/analysis_service.py`),
* `AIAssistant.explain_term` / `_fallback_generation`
  (`src/meditranslate/services/ai_assistant.py`),
* `TranslationService.load_model` / `translate`
  (`src/meditranslate/services/translation_service.py`),
* `AnalysisService.translate_content`,
* `OCRService.extract_text` (`src/services/ocr_service.py`),
* `ImageProcessor.enhance_for_ocr` / `_deskew`
  (`src/meditranslate/utils/image_processing.py`),
* the insight-deduplication loop of `ProcessingWorker.run`
  (`src/ui/scanner_tab.py`).

Python strings are modelled as `List Char` (`Str` below).  Character-class
predicates (`\w`, `\s`, `str.lower`, `str.title`) follow Python's behaviour on
the ASCII range, which is the range the keyword lists, glossary terms and regex
patterns of the program live in.  External collaborators (OpenCV, the MT model,
Tesseract, the generative service) are modelled as oracle parameters; the
control flow around them is translated from the source.
-/

/-- Python `str` as a list of characters. -/
abbrev Str := List Char

/-- Characters of Python's `\s` class (ASCII range): space, tab, newline,
carriage return, vertical tab, form feed. -/
def isPySpace (c : Char) : Bool :=
  c == ' ' || c == '\t' || c == '\n' || c == '\r' || c == '\x0b' || c == '\x0c'

/-- Characters of Python's `\w` class (ASCII range): letters, digits, underscore. -/
def isWordC (c : Char) : Bool :=
  c.isAlphanum || c == '_'

/-- Wordness of an optional character; the absent character (text start/end)
counts as non-word, matching `re`'s treatment of `\b` at the string ends. -/
def wordness : Option Char → Bool
  | none => false
  | some c => isWordC c

/-- Python `str.lower` (ASCII range). -/
def pyLower (s : Str) : Str := s.map Char.toLower

/-- Python `str.strip()` (ASCII whitespace). -/
def pyStrip (s : Str) : Str :=
  ((s.dropWhile isPySpace).reverse.dropWhile isPySpace).reverse

/-- Python's substring test `needle in hay`. -/
def containsSub (needle hay : Str) : Bool :=
  needle.isPrefixOf hay ||
    match hay with
    | [] => false
    | _ :: t => containsSub needle t

/-- Python `str.title()` (ASCII range): a letter that follows a letter is
lowercased, a letter that follows a non-letter is uppercased. -/
def pyTitleAux : Bool → Str → Str
  | _, [] => []
  | prevAlpha, c :: t =>
    (if c.isAlpha then (if prevAlpha then c.toLower else c.toUpper) else c)
      :: pyTitleAux c.isAlpha t

/-- Python `str.title()`. -/
def pyTitle (s : Str) : Str := pyTitleAux false s

/-!
## `AnalysisService.detect_document_type`
(`src/meditranslate/services/analysis_service.py`, lines 81–100)
-/

namespace AnalysisService

/-- Keyword set of the `Prescription / Medication List` branch. -/
def prescriptionKw : List Str :=
  ["rx".data, "prescription".data, "pharmacy".data, "take".data, "daily".data,
   "tablet".data]

/-- Keyword set of the `Laboratory Report` branch. -/
def labKw : List Str :=
  ["lab".data, "metabolic".data, "count".data, "positive".data, "negative".data,
   "range".data, "result".data]

/-- Keyword set of the `Discharge Summary` branch. -/
def dischargeKw : List Str :=
  ["discharge".data, "summary".data, "admitted".data, "hospital".data,
   "instructions".data]

/-- Keyword set of the `Clinical Note` branch. -/
def clinicalKw : List Str :=
  ["diagnosis".data, "history".data, "assessment".data, "plan".data]

/-- Python `any(x in text_lower for x in kws)`. -/
def anyHit (kws : List Str) (textLower : Str) : Bool :=
  kws.any (fun k => containsSub k textLower)

/-- `AnalysisService.detect_document_type`: keyword sets tried in fixed order,
first hit wins, fallthrough is the general category. -/
def detect_document_type (text : Str) : Str :=
  let t := pyLower text
  if anyHit prescriptionKw t then "Prescription / Medication List".data
  else if anyHit labKw t then "Laboratory Report".data
  else if anyHit dischargeKw t then "Discharge Summary".data
  else if anyHit clinicalKw t then "Clinical Note".data
  else "General Medical Document".data

end AnalysisService

/-- C3: document classification evaluates the four keyword sets in fixed
priority order (prescription, lab, discharge, clinical note), returns the
category of the first set with a case-insensitive substring hit, and
`General Medical Document` when no set hits.  In particular a text hitting
both the prescription and the discharge set classifies as Prescription,
by the first conjunct. -/
theorem detect_document_type_priority (text : Str) :
    (AnalysisService.anyHit AnalysisService.prescriptionKw (pyLower text) = true →
      AnalysisService.detect_document_type text = "Prescription / Medication List".data) ∧
    (AnalysisService.anyHit AnalysisService.prescriptionKw (pyLower text) = false →
      AnalysisService.anyHit AnalysisService.labKw (pyLower text) = true →
      AnalysisService.detect_document_type text = "Laboratory Report".data) ∧
    (AnalysisService.anyHit AnalysisService.prescriptionKw (pyLower text) = false →
      AnalysisService.anyHit AnalysisService.labKw (pyLower text) = false →
      AnalysisService.anyHit AnalysisService.dischargeKw (pyLower text) = true →
      AnalysisService.detect_document_type text = "Discharge Summary".data) ∧
    (AnalysisService.anyHit AnalysisService.prescriptionKw (pyLower text) = false →
      AnalysisService.anyHit AnalysisService.labKw (pyLower text) = false →
      AnalysisService.anyHit AnalysisService.dischargeKw (pyLower text) = false →
      AnalysisService.anyHit AnalysisService.clinicalKw (pyLower text) = true →
      AnalysisService.detect_document_type text = "Clinical Note".data) ∧
    (AnalysisService.anyHit AnalysisService.prescriptionKw (pyLower text) = false →
      AnalysisService.anyHit AnalysisService.labKw (pyLower text) = false →
      AnalysisService.anyHit AnalysisService.dischargeKw (pyLower text) = false →
      AnalysisService.anyHit AnalysisService.clinicalKw (pyLower text) = false →
      AnalysisService.detect_document_type text = "General Medical Document".data) := by
  unfold AnalysisService.detect_document_type
  refine ⟨?_, ?_, ?_, ?_, ?_⟩ <;> intros <;> simp_all

/-- Witness for C3: a text containing both a prescription keyword and a
discharge keyword classifies as Prescription. -/
theorem detect_document_type_priority_witness :
    AnalysisService.detect_document_type
      "prescription and discharge instructions".data =
      "Prescription / Medication List".data :=
  (detect_document_type_priority "prescription and discharge instructions".data).1
    (by decide)

/-!
## `AnalysisService.analyze_text`
(`src/meditranslate/services/analysis_service.py`, lines 102–161)

The primary and backup glossaries are loaded from data files at start-up and
are therefore parameters of the model (Python `dict` preserves insertion
order, so an association list is a faithful image).  The three regex patterns
of the middle pass are modelled as executable scanners with `re.search`
semantics: a pattern matches iff it matches at some start position, where a
position carries the preceding character for `\b` word-boundary tests.
-/

/-- An insight template / emitted insight: `{title, desc, type}`. -/
structure InsightData where
  title : Str
  desc : Str
  ty : Str
deriving DecidableEq, Repr

/-- `re.search` driver: try `pat` at each start position of the text, feeding it
the character preceding the position (for `\b` tests) and the suffix. -/
def scanAux (pat : Option Char → Str → Bool) : Option Char → Str → Bool
  | prev, [] => pat prev []
  | prev, c :: t => pat prev (c :: t) || scanAux pat (some c) t

/-- `re.search(pat, text)` as a Bool. -/
def reSearch (pat : Option Char → Str → Bool) (text : Str) : Bool :=
  scanAux pat none text

/-- Match of the literal (escaped) glossary `term` bracketed by `\b … \b` at one
position: word boundary before the first character, `term` a prefix of the
suffix, word boundary after the last character. -/
def matchTermAt (term : Str) (prev : Option Char) (s : Str) : Bool :=
  match term with
  | [] => wordness prev != wordness s.head?
  | t0 :: _ =>
    (wordness prev != isWordC t0) && term.isPrefixOf s &&
      (isWordC (term.getLastD t0) != wordness (s.drop term.length).head?)

/-- `re.search(r'\b' + re.escape(term) + r'\b', text_lower)`. -/
def hasWholeWord (term text : Str) : Bool :=
  reSearch (matchTermAt term) text

/-- Exactly `k` digits at the head of `s`. -/
def digitsBlock (s : Str) (k : Nat) : Bool :=
  (s.take k).length == k && (s.take k).all Char.isDigit

/-- Tail of the blood-pressure pattern after the slash: `\d{2,3}\b`. -/
def bpTail (s : Str) : Bool :=
  [2, 3].any (fun b => digitsBlock s b && !wordness ((s.drop b).head?))

/-- One-position match of `\b\d{2,3}/\d{2,3}\b` (the repetition bounds are an
existential choice, equivalent to the regex engine's backtracking). -/
def bpAt (prev : Option Char) (s : Str) : Bool :=
  !wordness prev &&
    [2, 3].any (fun a => digitsBlock s a &&
      (match s.drop a with
       | '/' :: r => bpTail r
       | _ => false))

/-- `re.search(r'\b\d{2,3}/\d{2,3}\b', text)`. -/
def hasBloodPressure (text : Str) : Bool :=
  reSearch bpAt text

/-- Tail of the fever patterns: `\s*F\b` resp. `\s*C\b` with `re.IGNORECASE`,
so the unit letter is compared lowercased. -/
def feverTail (unit : Char) (r : Str) : Bool :=
  match r.dropWhile isPySpace with
  | c :: r2 => c.toLower == unit && !wordness r2.head?
  | [] => false

/-- Optional `(\.\d)?` then the unit tail; both alternation branches tried. -/
def fracThenTail (unit : Char) (r : Str) : Bool :=
  feverTail unit r ||
    (match r with
     | '.' :: d :: r2 => d.isDigit && feverTail unit r2
     | _ => false)

/-- One-position match of `\b(99\.[5-9]|1\d{2}(\.\d)?)\s*F\b` (IGNORECASE). -/
def feverFAt (prev : Option Char) (s : Str) : Bool :=
  !wordness prev &&
    ((match s with
      | '9' :: '9' :: '.' :: d :: r => ('5' ≤ d && d ≤ '9') && feverTail 'f' r
      | _ => false) ||
     (match s with
      | '1' :: a :: b :: r => a.isDigit && b.isDigit && fracThenTail 'f' r
      | _ => false))

/-- One-position match of `\b(3[7-9](\.\d)?|4\d(\.\d)?)\s*C\b` (IGNORECASE). -/
def feverCAt (prev : Option Char) (s : Str) : Bool :=
  !wordness prev &&
    ((match s with
      | '3' :: d :: r => ('7' ≤ d && d ≤ '9') && fracThenTail 'c' r
      | _ => false) ||
     (match s with
      | '4' :: d :: r => d.isDigit && fracThenTail 'c' r
      | _ => false))

/-- The fever test of `analyze_text`: either temperature regex on the raw
text. -/
def hasFever (text : Str) : Bool :=
  reSearch feverFAt text || reSearch feverCAt text

/-- Tail of the dosage pattern: `\s+(tablets|pills|capsules)`. -/
def dosageTail (r : Str) : Bool :=
  match r with
  | c :: _ => isPySpace c &&
      (["tablets".data, "pills".data, "capsules".data].any
        (fun w => w.isPrefixOf (r.dropWhile isPySpace)))
  | [] => false

/-- One-position match of `\btake\s+\d+(\.\d)?\s+(tablets|pills|capsules)`
(run on the lowered text).  `\s+`/`\d+` take their maximal runs; shorter
backtracking choices are impossible because the following character class is
disjoint. -/
def dosageAt (prev : Option Char) (s : Str) : Bool :=
  !wordness prev && "take".data.isPrefixOf s &&
    (match s.drop 4 with
     | c :: t =>
       isPySpace c &&
         (let s2 := (c :: t).dropWhile isPySpace
          let ds := s2.takeWhile Char.isDigit
          !ds.isEmpty &&
            (let s3 := s2.drop ds.length
             dosageTail s3 ||
               (match s3 with
                | '.' :: d :: r => d.isDigit && dosageTail r
                | _ => false)))
     | [] => false)

/-- `re.search(r'\btake\s+\d+(\.\d)?\s+(tablets|pills|capsules)', text_lower)`. -/
def hasDosage (textLower : Str) : Bool :=
  reSearch dosageAt textLower

namespace AnalysisService

/-- The PRIMARY BRAIN loop: whole-word search for every glossary term in order,
appending the template on first match and recording the term in
`found_terms`. -/
def primaryAux (textLower : Str) :
    List (Str × InsightData) → List Str → List InsightData × List Str
  | [], found => ([], found)
  | (term, data) :: rest, found =>
    if hasWholeWord term textLower && !found.contains term then
      let (ins, f) := primaryAux textLower rest (term :: found)
      (data :: ins, f)
    else
      primaryAux textLower rest found

/-- The BACKUP BRAIN loop: at most 3 matches; a description hits when it is
longer than 4 characters and occurs as a substring of the lowered text and no
already-found term occurs inside it. -/
def backupAux (textLower : Str) :
    List (Str × Str) → List Str → Nat → List InsightData
  | [], _, _ => []
  | (code, desc) :: rest, found, count =>
    if count ≥ 3 then []
    else
      let dl := pyLower desc
      if decide (desc.length > 4) && containsSub dl textLower then
        if found.any (fun t => containsSub t dl) then
          backupAux textLower rest found count
        else
          { title := pyTitle desc ++ " (".data ++ code ++ ")".data,
            desc := "Medical diagnosis detected via International Database.".data,
            ty := "warning".data } :: backupAux textLower rest (dl :: found) (count + 1)
      else
        backupAux textLower rest found count

/-- Insight emitted by the blood-pressure pattern. -/
def bpInsight : InsightData :=
  { title := "Blood Pressure".data,
    desc := "Systolic/Diastolic readings. Normal is ~120/80.".data,
    ty := "warning".data }

/-- Insight emitted by the fever pattern. -/
def feverInsight : InsightData :=
  { title := "Fever Detected".data,
    desc := "High body temperature detected.".data,
    ty := "warning".data }

/-- Insight emitted by the dosage pattern. -/
def dosageInsight : InsightData :=
  { title := "Dosage Instruction".data,
    desc := "Specific instruction on how many pills to take.".data,
    ty := "info".data }

/-- `AnalysisService.analyze_text`, parameterised by the two loaded
glossaries: primary pass, then the three regex patterns, then the capped
backup pass. -/
def analyze_text (primary : List (Str × InsightData)) (backup : List (Str × Str))
    (text : Str) : List InsightData :=
  let tl := pyLower text
  let (ins1, found) := primaryAux tl primary []
  ins1 ++
    (if hasBloodPressure text then [bpInsight] else []) ++
    (if hasFever text then [feverInsight] else []) ++
    (if hasDosage tl then [dosageInsight] else []) ++
    backupAux tl backup found 0

end AnalysisService

/-!
## `ProcessingWorker.run` insight deduplication
(`src/ui/scanner_tab.py`, lines 66–77): exact-title dedup before translation.
The translated-field mutation is orthogonal to which items are kept and is not
modelled.
-/

namespace ProcessingWorker

/-- The dedup loop of `ProcessingWorker.run` with its `seen` set of titles. -/
def dedupAux (seen : List Str) : List InsightData → List InsightData
  | [] => []
  | item :: rest =>
    if seen.contains item.title then dedupAux seen rest
    else item :: dedupAux (item.title :: seen) rest

/-- The final insight list emitted by the worker: drop items whose exact title
was already seen. -/
def dedupInsights (items : List InsightData) : List InsightData :=
  dedupAux [] items

end ProcessingWorker

/-- A primary glossary with one curated entry whose template title coincides
with the pattern-pass Blood-Pressure title: `bp ↦ {title: "Blood Pressure"}`. -/
def cex1Glossary : List (Str × InsightData) :=
  [("bp".data,
    { title := "Blood Pressure".data, desc := "Reading".data, ty := "info".data })]

/-- C1 counterexample: `analyze_text` deduplicates by glossary *term* (pass 1)
and by description substring (pass 3), never by title, and the pattern pass
appends unconditionally.  On the text `"bp 120/80"` with a glossary entry
`bp ↦ Blood Pressure`, pass 1 and the blood-pressure pattern both emit an
insight titled `Blood Pressure`, so the returned list has two insights with
the same (even case-insensitively equal) title. -/
theorem analyze_text_title_dedup_counterexample :
    ¬ ((AnalysisService.analyze_text cex1Glossary [] "bp 120/80".data).map
        (fun i => pyLower i.title)).Nodup := by
  decide

/-- Titles kept by the worker dedup loop are distinct and unseen. -/
theorem dedupAux_titles_nodup (items : List InsightData) :
    ∀ seen : List Str,
      ((ProcessingWorker.dedupAux seen items).map InsightData.title).Nodup ∧
      ∀ i ∈ ProcessingWorker.dedupAux seen items, i.title ∉ seen := by
  induction items with
  | nil => intro seen; simp [ProcessingWorker.dedupAux]
  | cons item rest ih =>
    intro seen
    cases hc : seen.contains item.title with
    | true =>
      have hm : item.title ∈ seen := by simpa using hc
      have e : ProcessingWorker.dedupAux seen (item :: rest)
          = ProcessingWorker.dedupAux seen rest := by
        simp [ProcessingWorker.dedupAux, hm]
      rw [e]; exact ih seen
    | false =>
      have hm : item.title ∉ seen := by simpa using hc
      have e : ProcessingWorker.dedupAux seen (item :: rest)
          = item :: ProcessingWorker.dedupAux (item.title :: seen) rest := by
        simp [ProcessingWorker.dedupAux, hm]
      rw [e]
      obtain ⟨h1, h2⟩ := ih (item.title :: seen)
      refine ⟨?_, ?_⟩
      · rw [List.map_cons, List.nodup_cons]
        refine ⟨?_, h1⟩
        intro hmem
        obtain ⟨i, hi, hti⟩ := List.mem_map.mp hmem
        exact (h2 i hi) (by simp [hti])
      · intro i hi
        rcases List.mem_cons.mp hi with rfl | hi2
        · simpa using hc
        · have h3 := h2 i hi2
          intro hmem
          exact h3 (List.mem_cons_of_mem _ hmem)

/-- C1 (amended): the insight list the worker finally emits contains no two
insights with the same exact title — `ProcessingWorker.run` drops every item
whose title was already seen.  (`analyze_text` itself performs no title
dedup, per the counterexample, and the worker's comparison is case-sensitive,
so case-insensitive uniqueness is still not guaranteed.) -/
theorem worker_dedup_titles_nodup (items : List InsightData) :
    ((ProcessingWorker.dedupInsights items).map InsightData.title).Nodup :=
  (dedupAux_titles_nodup items []).1

/-!
## `AIAssistant.explain_term` / `_fallback_generation`
(`src/meditranslate/services/ai_assistant.py`, lines 78–116)

The generative service is a fault model: an outcome per primary attempt, one
fallback outcome, and the jitter drawn by `random.uniform(0, 1)` at each
backoff.  Exceptions are their string forms (`str(e)`), which is all the code
ever inspects.  The model returns the result string together with the trace of
externally visible events (primary call, sleep, fallback call), and is total:
every branch of the source returns a string, never re-raises.
-/

namespace AIAssistant

/-- Externally visible events of one `explain_term` call. -/
inductive Event where
  | primaryCall
  | sleep (seconds : ℚ)
  | fallbackCall
deriving DecidableEq, Repr

/-- Fault model of the generative service. -/
structure FaultModel where
  /-- Outcome of the primary-tier call at attempt `i` (`gemini-flash-latest`). -/
  primary : Nat → Except Str Str
  /-- Outcome of the single fallback-tier call (`gemini-flash-lite-latest`). -/
  fallback : Except Str Str
  /-- The `random.uniform(0, 1)` jitter drawn at attempt `i`. -/
  jitter : Nat → ℚ

/-- The transient-failure signature: `"429" in e or "RESOURCE_EXHAUSTED" in e
or "503" in e`. -/
def isTransient (e : Str) : Bool :=
  containsSub "429".data e || containsSub "RESOURCE_EXHAUSTED".data e ||
    containsSub "503".data e

/-- `AIAssistant._fallback_generation`: one secondary-tier call; failure is
converted to the labeled `System Error` string. -/
def fallback_generation (fm : FaultModel) : Str × List Event :=
  match fm.fallback with
  | .ok r => (r, [.fallbackCall])
  | .error e => ("System Error: All AI models failed. ".data ++ e, [.fallbackCall])

/-- `max_retries` of `explain_term`. -/
def maxRetries : Nat := 3

/-- The retry loop of `explain_term`: `remaining` attempts left, `attempt` the
current index (`explain_term` starts at `remaining = maxRetries`,
`attempt = 0`; the value after the loop is the final `return`). -/
def explainLoop (fm : FaultModel) : Nat → Nat → Str × List Event
  | 0, _ => ("AI Service busy. Please try again.".data, [])
  | remaining + 1, attempt =>
    match fm.primary attempt with
    | .ok r => (r, [.primaryCall])
    | .error e =>
      if isTransient e then
        let w : ℚ := 2 ^ attempt + fm.jitter attempt
        if attempt == maxRetries - 1 then
          let (r, evs) := fallback_generation fm
          (r, .primaryCall :: .sleep w :: evs)
        else
          let (r, evs) := explainLoop fm remaining (attempt + 1)
          (r, .primaryCall :: .sleep w :: evs)
      else if containsSub "404".data e then
        let (r, evs) := fallback_generation fm
        (r, .primaryCall :: evs)
      else
        ("Error connecting to AI: ".data ++ e, [.primaryCall])

/-- `AIAssistant.explain_term` under a fault model (the prompt construction
preceding the loop does not affect the retry behaviour). -/
def explain_term (fm : FaultModel) : Str × List Event :=
  explainLoop fm maxRetries 0

end AIAssistant

/-- C2: if every primary call fails with a transient (rate-limit/overload)
signature, `explain_term` makes exactly 3 primary attempts with exponentially
increasing backoff waits of `2^attempt + jitter` seconds after each, then
issues exactly one fallback call; if the fallback also fails, the result is
the labeled `System Error: All AI models failed.` string.  The function is
total, so no exception propagates to the caller. -/
theorem explain_term_exhaustion (fm : AIAssistant.FaultModel)
    (e0 e1 e2 : Str)
    (h0 : fm.primary 0 = .error e0) (t0 : AIAssistant.isTransient e0 = true)
    (h1 : fm.primary 1 = .error e1) (t1 : AIAssistant.isTransient e1 = true)
    (h2 : fm.primary 2 = .error e2) (t2 : AIAssistant.isTransient e2 = true) :
    (AIAssistant.explain_term fm).2 =
      [.primaryCall, .sleep (1 + fm.jitter 0),
       .primaryCall, .sleep (2 + fm.jitter 1),
       .primaryCall, .sleep (4 + fm.jitter 2), .fallbackCall] ∧
    (∀ ef : Str, fm.fallback = .error ef →
      (AIAssistant.explain_term fm).1 =
        "System Error: All AI models failed. ".data ++ ef) := by
  have run : AIAssistant.explain_term fm =
      ((AIAssistant.fallback_generation fm).1,
        .primaryCall :: .sleep (1 + fm.jitter 0) ::
        .primaryCall :: .sleep (2 + fm.jitter 1) ::
        .primaryCall :: .sleep (4 + fm.jitter 2) ::
          (AIAssistant.fallback_generation fm).2) := by
    simp [AIAssistant.explain_term, AIAssistant.explainLoop, AIAssistant.maxRetries,
      h0, h1, h2, t0, t1, t2]
    norm_num
  constructor
  · rw [run]
    rcases hf : fm.fallback with ef | rf <;>
      simp [AIAssistant.fallback_generation, hf]
  · intro ef hef
    rw [run]
    simp [AIAssistant.fallback_generation, hef]

/-- Witness for C2: a fault model that always answers `429` and whose fallback
also fails. -/
theorem explain_term_exhaustion_witness :
    (AIAssistant.explain_term
        ⟨fun _ => .error "429".data, .error "boom".data, fun _ => 0⟩).2 =
      [.primaryCall, .sleep (1 + 0), .primaryCall, .sleep (2 + 0),
       .primaryCall, .sleep (4 + 0), .fallbackCall] ∧
    (∀ ef : Str,
      (Except.error "boom".data : Except Str Str) = .error ef →
      (AIAssistant.explain_term
          ⟨fun _ => .error "429".data, .error "boom".data, fun _ => 0⟩).1 =
        "System Error: All AI models failed. ".data ++ ef) :=
  explain_term_exhaustion
    ⟨fun _ => .error "429".data, .error "boom".data, fun _ => 0⟩
    "429".data "429".data "429".data rfl (by decide) rfl (by decide) rfl (by decide)

/-- C8: if the primary tier fails transiently on exactly the first two calls
and succeeds on the third, `explain_term` returns the third result after
exactly two backoff waits and issues no fallback call. -/
theorem explain_term_retry_success (fm : AIAssistant.FaultModel)
    (e0 e1 r : Str)
    (h0 : fm.primary 0 = .error e0) (t0 : AIAssistant.isTransient e0 = true)
    (h1 : fm.primary 1 = .error e1) (t1 : AIAssistant.isTransient e1 = true)
    (h2 : fm.primary 2 = .ok r) :
    AIAssistant.explain_term fm =
      (r, [.primaryCall, .sleep (1 + fm.jitter 0),
           .primaryCall, .sleep (2 + fm.jitter 1), .primaryCall]) := by
  simp [AIAssistant.explain_term, AIAssistant.explainLoop, AIAssistant.maxRetries,
    h0, h1, h2, t0, t1]

/-- Witness for C8: fail twice with `503`, succeed with `"ok"` on the third
attempt. -/
theorem explain_term_retry_success_witness :
    AIAssistant.explain_term
        ⟨fun i => if i < 2 then .error "503".data else .ok "ok".data,
          .error "unused".data, fun _ => 0⟩ =
      ("ok".data,
        [.primaryCall, .sleep (1 + 0), .primaryCall, .sleep (2 + 0),
         .primaryCall]) :=
  explain_term_retry_success
    ⟨fun i => if i < 2 then .error "503".data else .ok "ok".data,
      .error "unused".data, fun _ => 0⟩
    "503".data "503".data "ok".data rfl (by decide) rfl (by decide) rfl

/-!
## `TranslationService`
(`src/meditranslate/services/translation_service.py`)

The per-language caches `self.models` / `self.tokenizers` are the state; the
transformers library and the file system are oracles.  `load_model` mutates
the state and may raise (returned as `Option Str`); emitted `.load` events
mark entry into the actual loading branch (the `from_pretrained` calls).
`translate` threads the state and appends a `.generate` event for the model
invocation.
-/

namespace TranslationService

/-- Abstract handles for loaded `MarianTokenizer` / `MarianMTModel` objects. -/
abbrev Handle := Nat

/-- Externally visible events of the service. -/
inductive TEvent where
  | load (lang : Str)
  | generate
deriving DecidableEq, Repr

/-- Oracles: the on-disk model directory and the transformers library. -/
structure TransEnv where
  /-- `model_path.exists()` for the directory of a given model name. -/
  pathExists : Str → Bool
  /-- `MarianTokenizer.from_pretrained` outcome for a model name. -/
  loadTok : Str → Except Str Handle
  /-- `MarianMTModel.from_pretrained` outcome for a model name. -/
  loadMdl : Str → Except Str Handle
  /-- tokenize → `model.generate` → `batch_decode` → `" ".join`. -/
  run : Handle → Handle → Str → Str

/-- The mutable caches of a `TranslationService` instance. -/
structure TransState where
  models : List (Str × Handle)
  tokenizers : List (Str × Handle)
deriving DecidableEq, Repr

/-- `self.model_map`. -/
def model_map : List (Str × Str) :=
  [("Spanish".data, "Helsinki-NLP/opus-mt-en-es".data),
   ("Hindi".data, "Helsinki-NLP/opus-mt-en-hi".data)]

/-- `TranslationService.load_model`: unsupported language and missing model
directory raise before anything is loaded; a cached language returns at once;
otherwise the tokenizer is loaded and cached, then the model (a failing model
load therefore leaves the tokenizer cached, as in the source). -/
def load_model (env : TransEnv) (st : TransState) (lang : Str) :
    TransState × Option Str × List TEvent :=
  match model_map.lookup lang with
  | none => (st, some ("Unsupported language: ".data ++ lang), [])
  | some name =>
    if (st.models.lookup lang).isSome then (st, none, [])
    else if !env.pathExists name then
      (st, some ("Model missing for ".data ++ lang), [])
    else
      match env.loadTok name with
      | .error e => (st, some e, [.load lang])
      | .ok tok =>
        match env.loadMdl name with
        | .error e =>
          ({ st with tokenizers := (lang, tok) :: st.tokenizers },
            some e, [.load lang])
        | .ok mdl =>
          ({ models := (lang, mdl) :: st.models,
             tokenizers := (lang, tok) :: st.tokenizers },
            none, [.load lang])

/-- `TranslationService.translate`: empty / whitespace-only input
short-circuits to `""`; otherwise `load_model` runs, then the cached pair
translates.  The `.error` results are the exceptions the Python method lets
propagate to its caller. -/
def translate (env : TransEnv) (st : TransState) (text lang : Str) :
    TransState × Except Str Str × List TEvent :=
  if text.isEmpty || (pyStrip text).isEmpty then (st, .ok [], [])
  else
    match load_model env st lang with
    | (st2, some e, evs) => (st2, .error e, evs)
    | (st2, none, evs) =>
      match st2.tokenizers.lookup lang, st2.models.lookup lang with
      | some tok, some mdl => (st2, .ok (env.run tok mdl text), evs ++ [.generate])
      | _, _ => (st2, .error "KeyError".data, evs)

/-- Number of model-load events in a trace. -/
def numLoads (evs : List TEvent) : Nat :=
  (evs.filter (fun e => match e with | .load _ => true | .generate => false)).length

end TranslationService

/-- C7: `translate` applied to the empty string or a whitespace-only string
returns the empty string, leaves the state untouched, and emits no event —
neither a model load nor a model invocation. -/
theorem translate_whitespace_short_circuit (env : TranslationService.TransEnv)
    (st : TranslationService.TransState) (text lang : Str)
    (h : pyStrip text = []) :
    TranslationService.translate env st text lang = (st, .ok [], []) := by
  simp [TranslationService.translate, h]

/-- Witness for C7: the empty string and `"   "` both short-circuit. -/
theorem translate_whitespace_short_circuit_witness :
    TranslationService.translate
        ⟨fun _ => true, fun _ => .ok 0, fun _ => .ok 1, fun _ _ t => t⟩
        ⟨[], []⟩ "   ".data "Spanish".data =
      (⟨[], []⟩, .ok [], []) :=
  translate_whitespace_short_circuit _ _ "   ".data "Spanish".data (by decide)

/-- C6: with a cold cache, the first non-short-circuited successful `translate`
call for a language performs exactly one model-load event; the second call for
the same language performs none, and `load_model` on the resulting state is
the identity on the cache (it returns at the cache check, before any load). -/
theorem translate_loads_once
    (env : TranslationService.TransEnv) (st : TranslationService.TransState)
    (lang text1 text2 : Str)
    (hcold : st.models.lookup lang = none)
    (hw1 : pyStrip text1 ≠ [])
    (hok : ∃ t, (TranslationService.translate env st text1 lang).2.1 = Except.ok t) :
    TranslationService.numLoads
        (TranslationService.translate env st text1 lang).2.2 = 1 ∧
    TranslationService.numLoads
        (TranslationService.translate env
          (TranslationService.translate env st text1 lang).1 text2 lang).2.2 = 0 ∧
    TranslationService.load_model env
        (TranslationService.translate env st text1 lang).1 lang =
      ((TranslationService.translate env st text1 lang).1, none, []) := by
  have hstrip : (pyStrip text1).isEmpty = false := by
    cases he : pyStrip text1 with
    | nil => exact absurd he hw1
    | cons c t => rfl
  have hne : text1.isEmpty = false := by
    cases text1 with
    | nil => exact absurd rfl hw1
    | cons c t => rfl
  have ht1 : (text1.isEmpty || (pyStrip text1).isEmpty) = false := by
    rw [hstrip, hne]; rfl
  cases hmm : TranslationService.model_map.lookup lang with
  | none =>
    exfalso
    rcases hok with ⟨t, ht⟩
    simp [TranslationService.translate, ht1, TranslationService.load_model, hmm] at ht
  | some name =>
    cases hpe : env.pathExists name with
    | false =>
      exfalso
      rcases hok with ⟨t, ht⟩
      simp [TranslationService.translate, ht1, TranslationService.load_model,
        hmm, hcold, hpe] at ht
    | true =>
      cases hlt : env.loadTok name with
      | error e =>
        exfalso
        rcases hok with ⟨t, ht⟩
        simp [TranslationService.translate, ht1, TranslationService.load_model,
          hmm, hcold, hpe, hlt] at ht
      | ok tok =>
        cases hlm2 : env.loadMdl name with
        | error e =>
          exfalso
          rcases hok with ⟨t, ht⟩
          simp [TranslationService.translate, ht1, TranslationService.load_model,
            hmm, hcold, hpe, hlt, hlm2] at ht
        | ok mdl =>
          have load1 : TranslationService.load_model env st lang =
              (⟨(lang, mdl) :: st.models, (lang, tok) :: st.tokenizers⟩,
                none, [.load lang]) := by
            simp [TranslationService.load_model, hmm, hcold, hpe, hlt, hlm2]
          have tr1 : TranslationService.translate env st text1 lang =
              (⟨(lang, mdl) :: st.models, (lang, tok) :: st.tokenizers⟩,
                .ok (env.run tok mdl text1), [.load lang, .generate]) := by
            simp [TranslationService.translate, ht1, load1, List.lookup]
          have load2 : TranslationService.load_model env
              (⟨(lang, mdl) :: st.models, (lang, tok) :: st.tokenizers⟩ :
                TranslationService.TransState) lang =
              (⟨(lang, mdl) :: st.models, (lang, tok) :: st.tokenizers⟩,
                none, []) := by
            simp only [TranslationService.load_model, hmm]
            simp [List.lookup]
          refine ⟨?_, ?_, ?_⟩
          · rw [tr1]
            simp [TranslationService.numLoads]
          · rw [tr1]
            by_cases hw2 : (text2.isEmpty || (pyStrip text2).isEmpty) = true
            · simp [TranslationService.translate, hw2, TranslationService.numLoads]
            · simp only [Bool.not_eq_true] at hw2
              simp [TranslationService.translate, hw2, load2, List.lookup,
                TranslationService.numLoads]
          · rw [tr1]
            exact load2

/-- Witness for C6: a Spanish model present on disk, loading succeeds, two
calls on non-empty texts. -/
theorem translate_loads_once_witness :
    TranslationService.numLoads
        (TranslationService.translate
          ⟨fun _ => true, fun _ => .ok 0, fun _ => .ok 1, fun _ _ t => t⟩
          ⟨[], []⟩ "hello".data "Spanish".data).2.2 = 1 ∧
    TranslationService.numLoads
        (TranslationService.translate
          ⟨fun _ => true, fun _ => .ok 0, fun _ => .ok 1, fun _ _ t => t⟩
          (TranslationService.translate
            ⟨fun _ => true, fun _ => .ok 0, fun _ => .ok 1, fun _ _ t => t⟩
            ⟨[], []⟩ "hello".data "Spanish".data).1 "world".data "Spanish".data).2.2 = 0 ∧
    TranslationService.load_model
        ⟨fun _ => true, fun _ => .ok 0, fun _ => .ok 1, fun _ _ t => t⟩
        (TranslationService.translate
          ⟨fun _ => true, fun _ => .ok 0, fun _ => .ok 1, fun _ _ t => t⟩
          ⟨[], []⟩ "hello".data "Spanish".data).1 "Spanish".data =
      ((TranslationService.translate
          ⟨fun _ => true, fun _ => .ok 0, fun _ => .ok 1, fun _ _ t => t⟩
          ⟨[], []⟩ "hello".data "Spanish".data).1, none, []) :=
  translate_loads_once _ _ "Spanish".data "hello".data "world".data
    (by decide) (by decide) ⟨"hello".data, rfl⟩

/-!
## `AnalysisService.translate_content`
(`src/meditranslate/services/analysis_service.py`, lines 163–169)

`self.translator` is `None` when `TranslationService()` raised in the
constructor (with `self.init_error` holding `str(e)`); otherwise the wrapper
calls `translate` and converts any exception to a labeled string.
-/

namespace AnalysisService

/-- `AnalysisService.translate_content`.  The translator slot is `none` when
initialisation failed; `initError` is `self.init_error`. -/
def translate_content (env : TranslationService.TransEnv)
    (translator : Option TranslationService.TransState) (initError : Str)
    (text lang : Str) : Str :=
  match translator with
  | none =>
    "[System Error]: Translator not active.\nReason: ".data ++ initError
  | some st =>
    match TranslationService.translate env st text lang with
    | (_, .ok r, _) => r
    | (_, .error e, _) => "[Error]: ".data ++ e

end AnalysisService

/-- C10: `translate_content` is total (the embedding returns a string on every
branch, as every exception of the underlying `translate` is caught).  For an
unsupported language and non-whitespace text the underlying `translate` raises
`ValueError("Unsupported language: <lang>")`, surfaced as the corresponding
`[Error]:` string; with a failed-to-initialise translator the result is the
`[System Error]:` string carrying the stored reason. -/
theorem translate_content_total_and_labeled
    (env : TranslationService.TransEnv) (st : TranslationService.TransState)
    (initError text lang : Str) :
    (TranslationService.model_map.lookup lang = none → pyStrip text ≠ [] →
      AnalysisService.translate_content env (some st) initError text lang =
        "[Error]: Unsupported language: ".data ++ lang) ∧
    (AnalysisService.translate_content env none initError text lang =
      "[System Error]: Translator not active.\nReason: ".data ++ initError) := by
  constructor
  · intro hmm hw
    have hstrip : (pyStrip text).isEmpty = false := by
      cases he : pyStrip text with
      | nil => exact absurd he hw
      | cons c t => rfl
    have hne : text.isEmpty = false := by
      cases text with
      | nil => exact absurd rfl hw
      | cons c t => rfl
    have ht : (text.isEmpty || (pyStrip text).isEmpty) = false := by
      rw [hstrip, hne]; rfl
    simp [AnalysisService.translate_content, TranslationService.translate, ht,
      TranslationService.load_model, hmm]
  · rfl

/-- Witness for C10: French is outside the supported map. -/
theorem translate_content_total_and_labeled_witness :
    AnalysisService.translate_content
        ⟨fun _ => true, fun _ => .ok 0, fun _ => .ok 1, fun _ _ t => t⟩
        (some ⟨[], []⟩) "init".data "bonjour".data "French".data =
      "[Error]: Unsupported language: ".data ++ "French".data :=
  (translate_content_total_and_labeled _ ⟨[], []⟩ "init".data "bonjour".data
      "French".data).1 (by decide) (by decide)

/-!
## `OCRService.extract_text`
(`src/services/ocr_service.py`, lines 22–53)

The tesseract call is an oracle outcome; the debug `print` has no effect on
the result.  A `None` image returns `""` before the engine runs.
-/

namespace OCRService

/-- `OCRService.extract_text`: `None` image ⇒ `""`; engine exception ⇒
labeled error string; blank recognition ⇒ sentinel; otherwise the stripped
text. -/
def extract_text (image : Option Nat) (ocr : Except Str Str) : Str :=
  match image with
  | none => []
  | some _ =>
    match ocr with
    | .error e => "Error reading document: ".data ++ e
    | .ok text =>
      if (pyStrip text).isEmpty then
        "[No text detected. Try Enhancing the image.]".data
      else
        pyStrip text

end OCRService

/-- C9: when recognition runs and produces empty or whitespace-only text,
`extract_text` returns the fixed non-empty sentinel, which is distinct from
the empty string; the function is total (every branch, including the engine
raising, returns a string). -/
theorem extract_text_blank_sentinel (image : Nat) (t : Str)
    (h : pyStrip t = []) :
    OCRService.extract_text (some image) (.ok t) =
      "[No text detected. Try Enhancing the image.]".data ∧
    OCRService.extract_text (some image) (.ok t) ≠ [] := by
  constructor
  · simp [OCRService.extract_text, h]
  · simp [OCRService.extract_text, h]

/-- Witness for C9: whitespace-only recognition output. -/
theorem extract_text_blank_sentinel_witness :
    OCRService.extract_text (some 0) (.ok " \n\t ".data) =
      "[No text detected. Try Enhancing the image.]".data ∧
    OCRService.extract_text (some 0) (.ok " \n\t ".data) ≠ [] :=
  extract_text_blank_sentinel 0 " \n\t ".data (by decide)

/-!
## `ImageProcessor.enhance_for_ocr` / `_deskew`
(`src/meditranslate/utils/image_processing.py`)

Images are abstracted to their shape (height, width, channel layout — `none`
for a 2-D grayscale array, `some c` for a 3-D array with `c` channels) plus an
opaque content tag; the OpenCV calls are fallible oracles over this type.
`cv2.HoughLines` yields `None` or a list of `(ρ, θ)` lines; the oracle reports
`θ` already converted to degrees (`np.degrees` is absorbed into the oracle
boundary), so the source's per-line angle is `θ - 90`.  `np.median` is the
usual middle element / mean-of-two-middles of the sorted list, over `ℚ`.
-/

/-- Shape-level image: pixel contents are an opaque tag. -/
structure Image where
  height : Nat
  width : Nat
  chans : Option Nat
  tag : Nat
deriving DecidableEq, Repr

/-- `image.size == 0`: some dimension is zero. -/
def Image.sizeZero (img : Image) : Bool :=
  img.height == 0 || img.width == 0 || img.chans == some 0

/-- Insert into a sorted list (ascending). -/
def insertQ (x : ℚ) : List ℚ → List ℚ
  | [] => [x]
  | y :: t => if x ≤ y then x :: y :: t else y :: insertQ x t

/-- Ascending sort, as `np.median` performs internally. -/
def sortQ (l : List ℚ) : List ℚ := l.foldr insertQ []

/-- `np.median`: middle element of the sorted list for odd length, mean of the
two middle elements for even length (0 on the empty list, which the source
guards against). -/
def np_median (l : List ℚ) : ℚ :=
  let s := sortQ l
  let n := s.length
  if n % 2 = 1 then s.getD (n / 2) 0
  else (s.getD (n / 2 - 1) 0 + s.getD (n / 2) 0) / 2

/-- OpenCV `cv2.INTER_CUBIC`. -/
def INTER_CUBIC : Nat := 2

/-- OpenCV `cv2.BORDER_CONSTANT`. -/
def BORDER_CONSTANT : Nat := 0

/-- The OpenCV oracles used by the pipeline.  `warpAffine` takes the image,
the rotation center and angle handed to `cv2.getRotationMatrix2D`, the
destination size `(w, h)`, interpolation flags, border mode and border
value. -/
structure CVEnv where
  cvtRGB2Gray : Image → Except Str Image
  fastNlMeansDenoising : Image → Except Str Image
  thresholdOtsu : Image → Except Str Image
  clahe : Image → Except Str Image
  canny : Image → Except Str Image
  houghLines : Image → Except Str (Option (List (ℚ × ℚ)))
  warpAffine : Image → ℚ × ℚ → ℚ → Nat × Nat → Nat → Nat →
    Nat × Nat × Nat → Except Str Image
  cvtGray2RGB : Image → Except Str Image

namespace ImageProcessor

/-- `ImageProcessor._deskew`: Canny → Hough; no lines ⇒ the input unchanged;
median line angle (from vertical) above 15° or below 0.5° in absolute value ⇒
the input unchanged; otherwise `warpAffine` with the rotation matrix about the
integer image center, the same `(w, h)` canvas, cubic interpolation and a
constant white border. -/
def deskew (env : CVEnv) (g : Image) : Except Str Image :=
  match env.canny g with
  | .error e => .error e
  | .ok edges =>
    match env.houghLines edges with
    | .error e => .error e
    | .ok none => .ok g
    | .ok (some lines) =>
      let angles := lines.map (fun rt => rt.2 - 90)
      if angles.isEmpty then .ok g
      else
        let m := np_median angles
        if 15 < |m| ∨ |m| < 1 / 2 then .ok g
        else
          env.warpAffine g (((g.width / 2 : Nat) : ℚ), ((g.height / 2 : Nat) : ℚ))
            m (g.width, g.height) INTER_CUBIC BORDER_CONSTANT (255, 255, 255)

/-- The body of the `try` block of `enhance_for_ocr`: grayscale conversion for
3-D inputs, denoising, the mutually exclusive contrast branch, deskew, and
re-expansion to 3 channels. -/
def enhancePipeline (env : CVEnv) (img : Image) (forceBinary : Bool) :
    Except Str Image :=
  match (if img.chans.isSome then env.cvtRGB2Gray img else .ok img) with
  | .error e => .error e
  | .ok gray =>
    match env.fastNlMeansDenoising gray with
    | .error e => .error e
    | .ok denoised =>
      match (if forceBinary then env.thresholdOtsu denoised
             else env.clahe denoised) with
      | .error e => .error e
      | .ok processed =>
        match deskew env processed with
        | .error e => .error e
        | .ok final => env.cvtGray2RGB final

/-- `ImageProcessor.enhance_for_ocr`: `None` or empty input is returned as is;
any exception inside the pipeline is caught and the original input returned. -/
def enhance_for_ocr (env : CVEnv) (image : Option Image) (forceBinary : Bool) :
    Option Image :=
  match image with
  | none => none
  | some img =>
    if img.sizeZero then some img
    else
      match enhancePipeline env img forceBinary with
      | .ok final => some final
      | .error _ => some img

end ImageProcessor

/-- Shape preservation of `_deskew`: a successful deskew either returns the
input or a `warpAffine` result with destination size `(w, h)`, so height,
width and channel layout are unchanged (under the `warpAffine` size
contract). -/
theorem deskew_shape (env : CVEnv)
    (hwarp : ∀ i c a d fl bm bv r, env.warpAffine i c a d fl bm bv = .ok r →
      r.height = d.2 ∧ r.width = d.1 ∧ r.chans = i.chans)
    (g r : Image) (h : ImageProcessor.deskew env g = .ok r) :
    r.height = g.height ∧ r.width = g.width ∧ r.chans = g.chans := by
  unfold ImageProcessor.deskew at h
  split at h
  · simp at h
  · split at h
    · simp at h
    · injection h with h; subst h; exact ⟨rfl, rfl, rfl⟩
    · dsimp only at h
      split at h
      · injection h with h; subst h; exact ⟨rfl, rfl, rfl⟩
      · split at h
        · injection h with h; subst h; exact ⟨rfl, rfl, rfl⟩
        · exact hwarp _ _ _ _ _ _ _ _ h

/-- C4: under the shape contracts of the OpenCV primitives (conversions and
filters preserve the 2-D size, grayscale conversion yields a 2-D array,
`warpAffine` obeys its destination size, gray→RGB yields 3 channels),
`enhance_for_ocr` is total — the embedding returns an image on every branch,
the caught exceptions included — and on every non-`None` input returns an
image of the same height and width that either has exactly 3 channels or is
the unmodified input (the graceful-degradation branch). -/
theorem enhance_for_ocr_shape (env : CVEnv)
    (hg : ∀ i r, env.cvtRGB2Gray i = .ok r →
      r.height = i.height ∧ r.width = i.width ∧ r.chans = none)
    (hd : ∀ i r, env.fastNlMeansDenoising i = .ok r →
      r.height = i.height ∧ r.width = i.width ∧ r.chans = i.chans)
    (ho : ∀ i r, env.thresholdOtsu i = .ok r →
      r.height = i.height ∧ r.width = i.width ∧ r.chans = i.chans)
    (hc : ∀ i r, env.clahe i = .ok r →
      r.height = i.height ∧ r.width = i.width ∧ r.chans = i.chans)
    (hwarp : ∀ i c a d fl bm bv r, env.warpAffine i c a d fl bm bv = .ok r →
      r.height = d.2 ∧ r.width = d.1 ∧ r.chans = i.chans)
    (hrgb : ∀ i r, env.cvtGray2RGB i = .ok r →
      r.height = i.height ∧ r.width = i.width ∧ r.chans = some 3)
    (img : Image) (forceBinary : Bool) :
    ∃ o, ImageProcessor.enhance_for_ocr env (some img) forceBinary = some o ∧
      o.height = img.height ∧ o.width = img.width ∧
      (o.chans = some 3 ∨ o = img) := by
  by_cases hsz : img.sizeZero
  · exact ⟨img, by simp [ImageProcessor.enhance_for_ocr, hsz], rfl, rfl, Or.inr rfl⟩
  · cases hpl : ImageProcessor.enhancePipeline env img forceBinary with
    | error e =>
      exact ⟨img, by simp [ImageProcessor.enhance_for_ocr, hsz, hpl],
        rfl, rfl, Or.inr rfl⟩
    | ok final =>
      refine ⟨final, by simp [ImageProcessor.enhance_for_ocr, hsz, hpl], ?_⟩
      unfold ImageProcessor.enhancePipeline at hpl
      split at hpl
      · simp at hpl
      · rename_i gray hgr
        have hgray : gray.height = img.height ∧ gray.width = img.width := by
          by_cases h3 : img.chans.isSome
          · rw [if_pos h3] at hgr
            exact ⟨(hg _ _ hgr).1, (hg _ _ hgr).2.1⟩
          · rw [if_neg h3] at hgr
            injection hgr with hgr; subst hgr; exact ⟨rfl, rfl⟩
        split at hpl
        · simp at hpl
        · rename_i denoised hdn
          obtain ⟨e1, e2, _⟩ := hd _ _ hdn
          split at hpl
          · simp at hpl
          · rename_i processed hpr
            have hproc : processed.height = denoised.height ∧
                processed.width = denoised.width := by
              by_cases hfb : forceBinary
              · rw [if_pos hfb] at hpr
                exact ⟨(ho _ _ hpr).1, (ho _ _ hpr).2.1⟩
              · rw [if_neg hfb] at hpr
                exact ⟨(hc _ _ hpr).1, (hc _ _ hpr).2.1⟩
            split at hpl
            · simp at hpl
            · rename_i fin2 hds
              obtain ⟨d1, d2, _⟩ := deskew_shape env hwarp _ _ hds
              obtain ⟨r1, r2, r3⟩ := hrgb _ _ hpl
              refine ⟨?_, ?_, Or.inl r3⟩
              · rw [r1, d1, hproc.1, e1, hgray.1]
              · rw [r2, d2, hproc.2, e2, hgray.2]

/-- A concrete, contract-respecting OpenCV oracle set for the witnesses. -/
def cvEnvW : CVEnv where
  cvtRGB2Gray i := .ok { i with chans := none }
  fastNlMeansDenoising i := .ok i
  thresholdOtsu i := .ok i
  clahe i := .ok i
  canny i := .ok i
  houghLines _ := .ok (some [(0, 100)])
  warpAffine i _ _ d _ _ _ := .ok { i with height := d.2, width := d.1 }
  cvtGray2RGB i := .ok { i with chans := some 3 }

/-- Witness for C4 at a concrete 3-channel 5×7 image under `cvEnvW`. -/
theorem enhance_for_ocr_shape_witness :
    ∃ o, ImageProcessor.enhance_for_ocr cvEnvW (some ⟨5, 7, some 3, 0⟩) false =
        some o ∧
      o.height = 5 ∧ o.width = 7 ∧
      (o.chans = some 3 ∨ o = ⟨5, 7, some 3, 0⟩) :=
  enhance_for_ocr_shape cvEnvW
    (fun i r h => by
      simp only [cvEnvW, Except.ok.injEq] at h
      subst h; exact ⟨rfl, rfl, rfl⟩)
    (fun i r h => by
      simp only [cvEnvW, Except.ok.injEq] at h
      subst h; exact ⟨rfl, rfl, rfl⟩)
    (fun i r h => by
      simp only [cvEnvW, Except.ok.injEq] at h
      subst h; exact ⟨rfl, rfl, rfl⟩)
    (fun i r h => by
      simp only [cvEnvW, Except.ok.injEq] at h
      subst h; exact ⟨rfl, rfl, rfl⟩)
    (fun i c a d fl bm bv r h => by
      simp only [cvEnvW, Except.ok.injEq] at h
      subst h; exact ⟨rfl, rfl, rfl⟩)
    (fun i r h => by
      simp only [cvEnvW, Except.ok.injEq] at h
      subst h; exact ⟨rfl, rfl, rfl⟩)
    ⟨5, 7, some 3, 0⟩ false

/-- C5: `_deskew` returns its input unchanged when line detection yields no
lines, or when the median of the line angles measured from vertical
(`θ − 90°`) exceeds 15° or falls below 0.5° in absolute value; otherwise it
returns `warpAffine` of the input with the rotation matrix
`getRotationMatrix2D((w//2, h//2), median, 1.0)` — the corrective rotation by
the negated measured skew, in OpenCV's counter-clockwise-positive convention —
on the same `(w, h)` canvas, with cubic interpolation and constant white
border fill. -/
theorem deskew_cases (env : CVEnv) (g edges : Image)
    (hcn : env.canny g = .ok edges) :
    (env.houghLines edges = .ok none → ImageProcessor.deskew env g = .ok g) ∧
    (∀ lines, env.houghLines edges = .ok (some lines) →
      (lines = [] ∨ 15 < |np_median (lines.map (fun rt => rt.2 - 90))| ∨
        |np_median (lines.map (fun rt => rt.2 - 90))| < 1 / 2) →
      ImageProcessor.deskew env g = .ok g) ∧
    (∀ lines, env.houghLines edges = .ok (some lines) → lines ≠ [] →
      ¬ 15 < |np_median (lines.map (fun rt => rt.2 - 90))| →
      ¬ |np_median (lines.map (fun rt => rt.2 - 90))| < 1 / 2 →
      ImageProcessor.deskew env g =
        env.warpAffine g (((g.width / 2 : Nat) : ℚ), ((g.height / 2 : Nat) : ℚ))
          (np_median (lines.map (fun rt => rt.2 - 90))) (g.width, g.height)
          INTER_CUBIC BORDER_CONSTANT (255, 255, 255)) := by
  refine ⟨?_, ?_, ?_⟩
  · intro hh
    simp [ImageProcessor.deskew, hcn, hh]
  · intro lines hh hsk
    rcases hsk with rfl | hsk
    · simp [ImageProcessor.deskew, hcn, hh]
    · unfold ImageProcessor.deskew
      rw [hcn]; dsimp only; rw [hh]; dsimp only
      by_cases hemp : (lines.map (fun rt => rt.2 - 90)).isEmpty
      · rw [if_pos hemp]
      · simp only [hemp, Bool.false_eq_true, if_false]
        rw [if_pos hsk]
  · intro lines hh hne h15 h05
    unfold ImageProcessor.deskew
    rw [hcn]; dsimp only; rw [hh]; dsimp only
    have hemp : (lines.map (fun rt => rt.2 - 90)).isEmpty = false := by
      cases lines with
      | nil => exact absurd rfl hne
      | cons a t => rfl
    simp only [hemp, Bool.false_eq_true, if_false]
    rw [if_neg (not_or.mpr ⟨h15, h05⟩)]

/-- Witness for C5: a single detected line at `θ = 100°` gives a median angle
of `10°` from vertical, inside the correction window, so deskew rotates. -/
theorem deskew_cases_witness :
    ImageProcessor.deskew cvEnvW ⟨5, 7, none, 0⟩ =
      cvEnvW.warpAffine ⟨5, 7, none, 0⟩
        ((((7 : Nat) / 2 : Nat) : ℚ), (((5 : Nat) / 2 : Nat) : ℚ))
        (np_median ([((0 : ℚ), (100 : ℚ))].map (fun rt => rt.2 - 90))) (7, 5)
        INTER_CUBIC BORDER_CONSTANT (255, 255, 255) :=
  (deskew_cases cvEnvW ⟨5, 7, none, 0⟩ ⟨5, 7, none, 0⟩ rfl).2.2
    [((0 : ℚ), (100 : ℚ))] rfl (by simp)
    (by norm_num [np_median, sortQ, insertQ])
    (by norm_num [np_median, sortQ, insertQ])
